import Mathlib

/-!
Shallow embedding of the Iris claim-validation engine (Python sources under
`src/`).  Money amounts (Python floats) are modelled as exact rationals,
scores as integers, and the string-valued statuses/severities are kept as
strings, mirroring the source.  Presentation-only payloads (f-string
explanations, summaries) are elided; every branching decision and every
numeric computation of the source is reproduced.
-/

namespace Iris

/-! ## Pre-authorization aggregator (`src/services/aggregator.py`) -/

namespace Aggregator

/-- `Aggregator._determine_overall_status`, body: collect the four agent
statuses in a list and apply the fail > warning > pass hierarchy via
membership, exactly as the Python `in` checks do. -/
def determine_overall_status_list (statuses : List String) : String :=
  if "fail" ∈ statuses then "fail"
  else if "warning" ∈ statuses then "warning"
  else "pass"

/-- `Aggregator._determine_overall_status`: the four agent statuses are
listed in argument order and merged. -/
def determine_overall_status (completeness policy medical fwa : String) : String :=
  determine_overall_status_list [completeness, policy, medical, fwa]

/-- `Aggregator._calculate_final_score`: base 100 plus the four score
impacts, clamped into 0..100 by `max(0, min(100, total))`. -/
def calculate_final_score (completeness policy medical fwa : Int) : Int :=
  let base_score : Int := 100
  let total_score := base_score + completeness + policy + medical + fwa
  max 0 (min 100 total_score)

end Aggregator

/-! ## Discharge aggregator (`src/services/discharge_aggregator.py`) -/

namespace DischargeAggregator

/-- `DischargeAggregator._calculate_overall_score`: start at 100, subtract
20 for each missing document, add the three agent score impacts, clamp
into 0..100. -/
def calculate_overall_score (bill_recon cost_esc med_guide : Int)
    (has_discharge has_bill : Bool) : Int :=
  let score : Int := 100
  let score := if has_discharge then score else score - 20
  let score := if has_bill then score else score - 20
  let score := score + bill_recon + cost_esc + med_guide
  max 0 (min 100 score)

/-- `DischargeAggregator._determine_completeness_status`. -/
def determine_completeness_status (score : Int) (has_discharge has_bill : Bool) : String :=
  if !has_discharge || !has_bill then "incomplete"
  else if score ≥ 80 then "complete"
  else if score ≥ 60 then "partial"
  else "incomplete"

/-- The checklist produced by `DischargeAggregator._generate_document_checklist`:
presence booleans for the two documents and the three guidance lists
(each present iff its list is non-empty). -/
structure DocumentChecklist where
  discharge_summary_present : Bool
  final_bill_present : Bool
  medications_present : Bool
  follow_up_present : Bool
  warning_signs_present : Bool
deriving DecidableEq

/-- `DischargeAggregator._generate_document_checklist`, with the three
guidance lists abstracted by their lengths. -/
def generate_document_checklist (has_discharge has_bill : Bool)
    (detailed_schedule_len appointments_len signs_len : Nat) : DocumentChecklist :=
  { discharge_summary_present := has_discharge
    final_bill_present := has_bill
    medications_present := decide (detailed_schedule_len > 0)
    follow_up_present := decide (appointments_len > 0)
    warning_signs_present := decide (signs_len > 0) }

/-- `DischargeAggregator._generate_recommendations`: conditionally append
each recommendation in source order, then fall back to the fixed
"documentation appears complete" entry when none was produced. -/
def generate_recommendations (bill_recon_status cost_esc_status : String)
    (checklist : DocumentChecklist) : List String :=
  let recommendations : List String := []
  let recommendations :=
    if checklist.discharge_summary_present then recommendations
    else recommendations ++ [("Obtain discharge summary from hospital")]
  let recommendations :=
    if checklist.final_bill_present then recommendations
    else recommendations ++ [("Obtain detailed final bill from hospital")]
  let recommendations :=
    if bill_recon_status = "significant_variance" ∧ cost_esc_status = "not_documented" then
      recommendations ++
        [("Request hospital to document medical reasons for cost increase in discharge summary")]
    else recommendations
  let recommendations :=
    if checklist.medications_present then recommendations
    else recommendations ++ [("Ensure all discharge medications are documented")]
  let recommendations :=
    if checklist.follow_up_present then recommendations
    else recommendations ++ [("Confirm follow-up appointment schedule with hospital")]
  if recommendations = [] then
    [("Documentation appears complete. Submit to insurer for their review.")]
  else recommendations

end DischargeAggregator

/-! ## Policy validator (`src/agents/policy_validator.py`) -/

namespace PolicyValidator

/-- One violation dictionary; the `explanation`/`suggestion` f-string prose
is presentational and elided, the `rule` and `severity` tags are kept. -/
structure PolicyViolation where
  rule : String
  severity : String
deriving DecidableEq

/-- `PolicyValidator._calculate_score_impact`: start at 0, subtract 20 per
critical violation and 10 per warning violation, no floor. -/
def calculate_score_impact (violations : List PolicyViolation) : Int :=
  violations.foldl
    (fun score v =>
      if v.severity = "critical" then score - 20
      else if v.severity = "warning" then score - 10
      else score) 0

/-- Status determination at the end of `PolicyValidator.validate`:
fail if any critical violation, else warning if any violation, else pass. -/
def status_of_violations (violations : List PolicyViolation) : String :=
  let has_critical := violations.any (fun v => decide (v.severity = "critical"))
  if has_critical then "fail"
  else if violations ≠ [] then "warning"
  else "pass"

/-- A parsed `datetime` as used by the date arithmetic. -/
structure Date where
  year : Int
  month : Int
  day : Int
deriving DecidableEq

/-- `PolicyValidator._calculate_months_between`: calendar month difference,
minus one when the end day-of-month is strictly before the start
day-of-month. -/
def calculate_months_between (start_date end_date : Date) : Int :=
  let months := (end_date.year - start_date.year) * 12 + (end_date.month - start_date.month)
  if end_date.day < start_date.day then months - 1 else months

/-- `PolicyValidator._check_procedure_waiting_period`, after the waiting
period lookup (which yields `none` when the policy configures nothing for
the procedure) and the date parsing have succeeded: no requirement when
the configured value is absent or zero, otherwise a critical violation
when the elapsed months fall short. -/
def check_procedure_waiting_period (waiting_period_months : Option Int)
    (policy_start admission : Date) : List PolicyViolation :=
  match waiting_period_months with
  | Option.none => []
  | Option.some w =>
    if w = 0 then []
    else
      let months_elapsed := calculate_months_between policy_start admission
      if months_elapsed < w then
        [{ rule := "procedure_waiting_period", severity := "critical" }]
      else []

end PolicyValidator

/-! ## Completeness checker (`src/agents/completeness_checker.py`) -/

namespace CompletenessChecker

/-- A Python value as stored in the form-data dictionary and in the
`model_dump` of a medical note.  Truthiness follows Python `bool(...)`. -/
inductive PyValue where
  | none
  | bool (b : Bool)
  | int (n : Int)
  | float (q : ℚ)
  | str (s : String)
  | list (elems : List PyValue)
  | dict (entries : List (String × PyValue))

/-- Python truthiness of a value (`not value` in the source checks). -/
def PyValue.truthy : PyValue → Bool
  | PyValue.none => false
  | PyValue.bool b => b
  | PyValue.int n => decide (n ≠ 0)
  | PyValue.float q => decide (q ≠ 0)
  | PyValue.str s => decide (s ≠ "")
  | PyValue.list elems => !elems.isEmpty
  | PyValue.dict entries => !entries.isEmpty

/-- The 8 required pre-authorization form fields. -/
def REQUIRED_FORM_FIELDS : List String :=
  [("policy_number"), ("policy_start_date"), ("sum_insured"),
   ("planned_admission_date"), ("hospital_name"), ("insurer"),
   ("policy_type"), ("procedure_id")]

/-- The 9 required medical note sections. -/
def REQUIRED_MEDICAL_NOTE_SECTIONS : List String :=
  [("patient_info"), ("diagnosis"), ("clinical_history"),
   ("proposed_treatment"), ("medical_justification"),
   ("hospitalization_details"), ("cost_breakdown"),
   ("doctor_details"), ("hospital_details")]

/-- `SCORE_DEDUCTION_PER_FIELD = 5`. -/
def SCORE_DEDUCTION_PER_FIELD : Int := 5

/-- One completeness issue; the source reports each as a message string,
here each message is represented by a constructor carrying its data. -/
inductive CompletenessIssue where
  | missingFormField (field : String)
  | emptyFormField (field : String)
  | noteMissingSection (sectionName : String)
  | noteSectionEmpty (sectionName : String)
  | noteSectionIncomplete (sectionName : String)
  | costTotalZero
  | costAllZero
  | costNegative
  | costSumMismatch (calculated_total total_estimated_cost : ℚ)
deriving DecidableEq

/-- Recognizer for the sum-mismatch issue. -/
def CompletenessIssue.isSumMismatch : CompletenessIssue → Bool
  | CompletenessIssue.costSumMismatch _ _ => true
  | _ => false

/-- `CostBreakdown` from `src/models/schemas.py`; the three `Optional`
fields may be `None`. -/
structure CostBreakdown where
  room_charges : ℚ
  surgeon_fees : ℚ
  anesthetist_fees : ℚ
  ot_charges : ℚ
  icu_charges : Option ℚ
  investigations : ℚ
  medicines_consumables : ℚ
  implants : Option ℚ
  other_charges : Option ℚ
  total_estimated_cost : ℚ
deriving DecidableEq

/-- A `MedicalNote` as consumed by the completeness checker: the nine
non-cost sections are arbitrary Python values (the checker only inspects
their truthiness and dictionary entries), the cost breakdown is typed. -/
structure MedicalNote where
  patient_info : PyValue
  diagnosis : PyValue
  clinical_history : PyValue
  diagnostic_tests : PyValue
  proposed_treatment : PyValue
  medical_justification : PyValue
  hospitalization_details : PyValue
  cost_breakdown : CostBreakdown
  doctor_details : PyValue
  hospital_details : PyValue

/-- Dump of an `Optional[float]` pydantic field. -/
def option_float : Option ℚ → PyValue
  | Option.none => PyValue.none
  | Option.some q => PyValue.float q

/-- Pydantic `model_dump` of the cost breakdown, in field order. -/
def CostBreakdown.model_dump (cb : CostBreakdown) : PyValue :=
  PyValue.dict
    [("room_charges", PyValue.float cb.room_charges),
     ("surgeon_fees", PyValue.float cb.surgeon_fees),
     ("anesthetist_fees", PyValue.float cb.anesthetist_fees),
     ("ot_charges", PyValue.float cb.ot_charges),
     ("icu_charges", option_float cb.icu_charges),
     ("investigations", PyValue.float cb.investigations),
     ("medicines_consumables", PyValue.float cb.medicines_consumables),
     ("implants", option_float cb.implants),
     ("other_charges", option_float cb.other_charges),
     ("total_estimated_cost", PyValue.float cb.total_estimated_cost)]

/-- Pydantic `model_dump` of the medical note, in field order. -/
def MedicalNote.model_dump (note : MedicalNote) : List (String × PyValue) :=
  [("patient_info", note.patient_info),
   ("diagnosis", note.diagnosis),
   ("clinical_history", note.clinical_history),
   ("diagnostic_tests", note.diagnostic_tests),
   ("proposed_treatment", note.proposed_treatment),
   ("medical_justification", note.medical_justification),
   ("hospitalization_details", note.hospitalization_details),
   ("cost_breakdown", note.cost_breakdown.model_dump),
   ("doctor_details", note.doctor_details),
   ("hospital_details", note.hospital_details)]

/-- `CompletenessChecker._check_form_fields`: a missing key reports a
"Missing form field" issue, a falsy value an "Empty form field" issue. -/
def check_form_fields (form_data : List (String × PyValue)) : List CompletenessIssue :=
  REQUIRED_FORM_FIELDS.foldr
    (fun field acc =>
      (match form_data.lookup field with
       | Option.none => [CompletenessIssue.missingFormField field]
       | Option.some v =>
         if v.truthy then [] else [CompletenessIssue.emptyFormField field]) ++ acc)
    []

/-- `CompletenessChecker._check_medical_note_sections`: each required
section must be present, truthy, and — when a dictionary — contain at
least one truthy value. -/
def check_medical_note_sections (medical_note : MedicalNote) : List CompletenessIssue :=
  let medical_note_dict := medical_note.model_dump
  REQUIRED_MEDICAL_NOTE_SECTIONS.foldr
    (fun sectionName acc =>
      (match medical_note_dict.lookup sectionName with
       | Option.none => [CompletenessIssue.noteMissingSection sectionName]
       | Option.some v =>
         if !v.truthy then [CompletenessIssue.noteSectionEmpty sectionName]
         else
           match v with
           | PyValue.dict entries =>
             if entries.any (fun kv => kv.2.truthy) then []
             else [CompletenessIssue.noteSectionIncomplete sectionName]
           | _ => []) ++ acc)
    []

/-- The six `cost_components` inspected by the all-zero and negativity
checks (the source omits `icu_charges`, `implants` and `other_charges`
here). -/
def CostBreakdown.components (cb : CostBreakdown) : List ℚ :=
  [cb.room_charges, cb.surgeon_fees, cb.anesthetist_fees, cb.ot_charges,
   cb.investigations, cb.medicines_consumables]

/-- `calculated_total`: sum of all nine components, the optional ones
defaulted to 0 via Python `or 0`. -/
def CostBreakdown.calculated_total (cb : CostBreakdown) : ℚ :=
  cb.room_charges + cb.surgeon_fees + cb.anesthetist_fees + cb.ot_charges +
    cb.icu_charges.getD 0 + cb.investigations + cb.medicines_consumables +
    cb.implants.getD 0 + cb.other_charges.getD 0

/-- `CompletenessChecker._check_cost_breakdown` (the source takes the note
and reads `.cost_breakdown`; its `except` branch is unreachable here):
zero/missing total short-circuits; otherwise the all-zero, negativity and
1%-tolerance sum checks each contribute at most one issue, in order. -/
def check_cost_breakdown (cost_breakdown : CostBreakdown) : List CompletenessIssue :=
  if cost_breakdown.total_estimated_cost ≤ 0 then [CompletenessIssue.costTotalZero]
  else
    let cost_components := cost_breakdown.components
    let issues_all_zero :=
      if cost_components.all (fun cost => decide (cost = 0)) then
        [CompletenessIssue.costAllZero]
      else []
    let issues_negative :=
      if cost_components.any (fun cost => decide (cost < 0)) then
        [CompletenessIssue.costNegative]
      else []
    let calculated_total := cost_breakdown.calculated_total
    let issues_mismatch :=
      if |calculated_total - cost_breakdown.total_estimated_cost| >
          cost_breakdown.total_estimated_cost * (1 / 100) then
        [CompletenessIssue.costSumMismatch calculated_total
          cost_breakdown.total_estimated_cost]
      else []
    issues_all_zero ++ issues_negative ++ issues_mismatch

/-- `CompletenessChecker._calculate_score_impact`: -1 × issue count × 5. -/
def calculate_score_impact (issues : List CompletenessIssue) : Int :=
  -1 * (issues.length : Int) * SCORE_DEDUCTION_PER_FIELD

/-- `CompletenessResult` from `src/models/schemas.py`. -/
structure CompletenessResult where
  status : String
  issues : List CompletenessIssue
  score_impact : Int

/-- `CompletenessChecker.validate`: concatenate the three check results in
order, score them, and pass iff there is no issue. -/
def validate (form_data : List (String × PyValue)) (medical_note : MedicalNote) :
    CompletenessResult :=
  let issues := check_form_fields form_data ++ check_medical_note_sections medical_note ++
    check_cost_breakdown medical_note.cost_breakdown
  let score_impact := calculate_score_impact issues
  let status := if issues.length = 0 then "pass" else "fail"
  { status := status, issues := issues, score_impact := score_impact }

/-- A form with 5 of the 8 required fields filled and 3 absent
(`insurer`, `policy_type`, `procedure_id`). -/
def example_form : List (String × PyValue) :=
  [("policy_number", PyValue.str ("POL123")),
   ("policy_start_date", PyValue.str ("2024-01-01")),
   ("sum_insured", PyValue.int 500000),
   ("planned_admission_date", PyValue.str ("2025-11-10")),
   ("hospital_name", PyValue.str ("City Eye Hospital"))]

/-- A cost breakdown whose components sum exactly to the declared total. -/
def example_cost_breakdown : CostBreakdown :=
  { room_charges := 100, surgeon_fees := 100, anesthetist_fees := 100,
    ot_charges := 100, icu_charges := Option.some 0, investigations := 50,
    medicines_consumables := 50, implants := Option.some 0,
    other_charges := Option.some 0, total_estimated_cost := 500 }

/-- A medical note with every required section present and truthy. -/
def example_note : MedicalNote :=
  { patient_info := PyValue.dict [("name", PyValue.str ("Asha Rao")), ("age", PyValue.int 52)]
    diagnosis := PyValue.dict [("primary_diagnosis", PyValue.str ("Senile cataract")),
      ("icd_10_code", PyValue.str ("H25.9"))]
    clinical_history := PyValue.dict [("chief_complaints", PyValue.str ("Blurred vision"))]
    diagnostic_tests := PyValue.list []
    proposed_treatment := PyValue.dict [("procedure_name", PyValue.str ("Phacoemulsification"))]
    medical_justification := PyValue.dict
      [("why_hospitalization_required", PyValue.str ("Day care surgery")),
       ("why_treatment_necessary", PyValue.str ("Progressive vision loss"))]
    hospitalization_details := PyValue.dict
      [("planned_admission_date", PyValue.str ("2025-11-10")),
       ("expected_length_of_stay", PyValue.int 1)]
    cost_breakdown := example_cost_breakdown
    doctor_details := PyValue.dict [("name", PyValue.str ("Dr. Mehta"))]
    hospital_details := PyValue.dict [("name", PyValue.str ("City Eye Hospital"))] }

/-- A cost breakdown whose component sum (500) is far from its declared
total (1000). -/
def example_mismatch_breakdown : CostBreakdown :=
  { room_charges := 500, surgeon_fees := 0, anesthetist_fees := 0,
    ot_charges := 0, icu_charges := Option.none, investigations := 0,
    medicines_consumables := 0, implants := Option.none,
    other_charges := Option.none, total_estimated_cost := 1000 }

/-- A cost breakdown whose only negative component is the ICU charge, with
a consistent declared total. -/
def example_negative_icu_breakdown : CostBreakdown :=
  { room_charges := 100, surgeon_fees := 100, anesthetist_fees := 100,
    ot_charges := 100, icu_charges := Option.some (-100), investigations := 100,
    medicines_consumables := 100, implants := Option.some 0,
    other_charges := Option.some 0, total_estimated_cost := 500 }

/-- A cost breakdown with a negative room charge. -/
def example_negative_room_breakdown : CostBreakdown :=
  { room_charges := -50, surgeon_fees := 100, anesthetist_fees := 0,
    ot_charges := 0, icu_charges := Option.none, investigations := 0,
    medicines_consumables := 0, implants := Option.none,
    other_charges := Option.none, total_estimated_cost := 50 }

end CompletenessChecker

/-! ## Bill reconciliation (`src/agents/bill_reconciliation.py`) -/

namespace BillReconciliationAgent

/-- Python `round(x, 2)` on the exact rationals of this model: round the
scaled value to the nearest integer (the float ties-to-even of the source can
differ from this only at exact half-cent ties, which no claim touches). -/
def round2 (q : ℚ) : ℚ := (round (q * 100) : ℤ) / 100

/-- `ACCEPTABLE_THRESHOLD = 0.10`. -/
def ACCEPTABLE_THRESHOLD : ℚ := 0.10

/-- `MINOR_THRESHOLD = 0.25`. -/
def MINOR_THRESHOLD : ℚ := 0.25

/-- The `total_variance` dictionary. -/
structure TotalVariance where
  expected : ℚ
  actual : ℚ
  difference : ℚ
  percentage : ℚ
deriving DecidableEq

/-- `BillReconciliationAgent._calculate_total_variance`: signed difference
and percentage of the expected total (0 when the expected total is not
positive), percentage rounded to two decimals. -/
def calculate_total_variance (expected actual : ℚ) : TotalVariance :=
  let difference := actual - expected
  let percentage := if 0 < expected then difference / expected * 100 else 0
  { expected := expected, actual := actual, difference := difference,
    percentage := round2 percentage }

/-- One entry of the `line_item_comparison` list. -/
structure LineItemComparison where
  item : String
  display_name : String
  expected : ℚ
  actual : ℚ
  difference : ℚ
  percentage : ℚ
  severity : String
deriving DecidableEq

/-- Python `str.title()` on the lowercase snake-case names used here. -/
def title_case (s : String) : String :=
  String.intercalate (" ") ((s.splitOn (" ")).map String.capitalize)

/-- `category.replace('_', ' ').title()`. -/
def display_name_of (category : String) : String :=
  title_case (category.replace ("_") (" "))

/-- The fixed category list iterated by `_compare_line_items`. -/
def categories : List String :=
  [("room_charges"), ("nursing_charges"), ("surgeon_fees"),
   ("anesthetist_fees"), ("ot_charges"), ("ot_consumables"),
   ("medicines"), ("medicines_consumables"), ("implants"),
   ("investigations"), ("other_charges")]

/-- Python `dict.get(key, 0)`. -/
def dict_get (d : List (String × ℚ)) (key : String) : ℚ := (d.lookup key).getD 0

/-- The entry appended for one compared category: signed difference,
percentage (sentinel 999.9 for an item absent from the pre-authorization,
0 when the actual amount is also zero), severity by the 10/25 percent
thresholds, percentage rounded to two decimals. -/
def make_item (category : String) (expected_amount actual_amount : ℚ) :
    LineItemComparison :=
  let difference := actual_amount - expected_amount
  let percentage :=
    if 0 < expected_amount then |difference| / expected_amount * 100
    else if actual_amount = 0 then 0 else 999.9
  let severity :=
    if |percentage| ≤ ACCEPTABLE_THRESHOLD * 100 then "acceptable"
    else if |percentage| ≤ MINOR_THRESHOLD * 100 then "minor"
    else "significant"
  { item := category, display_name := display_name_of category,
    expected := expected_amount, actual := actual_amount,
    difference := difference, percentage := round2 percentage,
    severity := severity }

/-- The loop of `BillReconciliationAgent._compare_line_items`, recursing
over the remaining categories and threading the `seen_categories` set:
skip `medicines_consumables` once `medicines` was compared, substitute
`medicines_consumables` for a zero actual `medicines` amount, skip when
both effective amounts are zero, otherwise emit the comparison entry. -/
def compare_loop (expected actual : List (String × ℚ)) :
    List String → List String → List LineItemComparison
  | [], _ => []
  | category :: rest, seen_categories =>
    let expected_amount := dict_get expected category
    let actual_amount := dict_get actual category
    if category = "medicines_consumables" ∧ "medicines" ∈ seen_categories then
      compare_loop expected actual rest seen_categories
    else
      let actual_amount :=
        if category = "medicines" ∧ actual_amount = 0 then
          dict_get actual ("medicines_consumables")
        else actual_amount
      if expected_amount = 0 ∧ actual_amount = 0 then
        compare_loop expected actual rest seen_categories
      else
        make_item category expected_amount actual_amount ::
          compare_loop expected actual rest (category :: seen_categories)

/-- `BillReconciliationAgent._compare_line_items`. -/
def compare_line_items (expected actual : List (String × ℚ)) : List LineItemComparison :=
  compare_loop expected actual categories []

/-- Ordering discipline satisfied by the fixed category list: wherever
`medicines_consumables` occurs, `medicines` does not occur later. -/
def okOrder : List String → Prop
  | [] => True
  | c :: cs => (c = "medicines_consumables" → "medicines" ∉ cs) ∧ okOrder cs

/-- The `stay_variance` dictionary. -/
structure StayVariance where
  expected_days : Int
  actual_days : Int
  extra_days : Int
  is_extended : Bool
deriving DecidableEq

/-- `BillReconciliationAgent._calculate_stay_variance`. -/
def calculate_stay_variance (expected_days actual_days : Int) : StayVariance :=
  let extra_days := actual_days - expected_days
  { expected_days := expected_days, actual_days := actual_days,
    extra_days := extra_days, is_extended := decide (extra_days > 0) }

/-- `BillReconciliationAgent._determine_severity`: at most 10 percent is
acceptable, at most 25 percent minor, beyond that significant. -/
def determine_severity (variance_percentage : ℚ) : String :=
  let abs_percentage := |variance_percentage|
  if abs_percentage ≤ ACCEPTABLE_THRESHOLD * 100 then "acceptable"
  else if abs_percentage ≤ MINOR_THRESHOLD * 100 then "minor_variance"
  else "significant_variance"

/-- `BillReconciliationAgent._calculate_score_impact`: base deduction per
overall severity, minus 2 per significant line item counting at most the
first 3, floored at -20. -/
def calculate_score_impact (severity : String) (line_items : List LineItemComparison) : Int :=
  let base_impact : Int :=
    if severity = "acceptable" then 0
    else if severity = "minor_variance" then -5
    else if severity = "significant_variance" then -15
    else 0
  let significant_items := line_items.filter (fun item => decide (item.severity = "significant"))
  let impact := base_impact + ((min significant_items.length 3 : ℕ) : Int) * (-2)
  max impact (-20)

/-- The actual bill dictionary as consumed by `reconcile`. -/
structure ActualBill where
  itemized_costs : List (String × ℚ)
  total_bill_amount : ℚ

/-- The reconciliation output dictionary (the `summary` narrative string
is presentational and elided). -/
structure ReconciliationResult where
  status : String
  total_variance : TotalVariance
  line_item_comparison : List LineItemComparison
  stay_variance : StayVariance
  score_impact : Int

/-- `BillReconciliationAgent.reconcile`. -/
def reconcile (expected_costs : List (String × ℚ)) (actual_bill : ActualBill)
    (expected_stay_days actual_stay_days : Int) : ReconciliationResult :=
  let actual_itemized := actual_bill.itemized_costs
  let actual_total := actual_bill.total_bill_amount
  let expected_total := dict_get expected_costs ("total_estimated_cost")
  let total_variance := calculate_total_variance expected_total actual_total
  let line_item_comparison := compare_line_items expected_costs actual_itemized
  let stay_variance := calculate_stay_variance expected_stay_days actual_stay_days
  let overall_severity := determine_severity total_variance.percentage
  let score_impact := calculate_score_impact overall_severity line_item_comparison
  { status := overall_severity, total_variance := total_variance,
    line_item_comparison := line_item_comparison, stay_variance := stay_variance,
    score_impact := score_impact }

/-- A pre-authorization estimate totalling 52,000. -/
def example_expected_costs : List (String × ℚ) :=
  [("room_charges", 3500), ("surgeon_fees", 18000), ("anesthetist_fees", 3000),
   ("ot_charges", 12000), ("medicines", 13500), ("investigations", 1500),
   ("other_charges", 500), ("total_estimated_cost", 52000)]

/-- An actual bill totalling 79,500 with four significantly varying line
items. -/
def example_actual_bill : ActualBill :=
  { itemized_costs :=
      [("room_charges", 10500), ("surgeon_fees", 18000), ("anesthetist_fees", 3000),
       ("ot_charges", 20000), ("medicines", 25000), ("investigations", 2500),
       ("other_charges", 500)],
    total_bill_amount := 79500 }

/-- The single comparison entry produced for a 100-expected,
150-actual room charge. -/
def example_line_item : LineItemComparison :=
  { item := "room_charges", display_name := display_name_of ("room_charges"),
    expected := 100, actual := 150, difference := 50, percentage := 50,
    severity := "significant" }

end BillReconciliationAgent

/-! ## Theorems for claims C1, C2, C3 -/

/-- C1: the pre-authorization overall status is fail if at least one of the
four agent statuses is fail, else warning if at least one is warning, else
pass; and the merge is order-independent (invariant under any permutation
of the status list). -/
theorem preauth_overall_status_hierarchy :
    (∀ c p m f : String,
      (Aggregator.determine_overall_status c p m f = "fail" ↔
        "fail" ∈ ([c, p, m, f] : List String)) ∧
      (Aggregator.determine_overall_status c p m f = "warning" ↔
        ("fail" ∉ ([c, p, m, f] : List String) ∧
          "warning" ∈ ([c, p, m, f] : List String))) ∧
      ("fail" ∉ ([c, p, m, f] : List String) →
        "warning" ∉ ([c, p, m, f] : List String) →
        Aggregator.determine_overall_status c p m f = "pass")) ∧
    (∀ l l' : List String, l.Perm l' →
      Aggregator.determine_overall_status_list l =
        Aggregator.determine_overall_status_list l') := by
  constructor
  · intro c p m f
    unfold Aggregator.determine_overall_status Aggregator.determine_overall_status_list
    split_ifs with hf hw <;> simp_all
  · intro l l' h
    unfold Aggregator.determine_overall_status_list
    simp only [h.mem_iff]

/-- Witness for C1: the permutation invariance applied at a concrete
reordering of the four statuses. -/
theorem preauth_overall_status_hierarchy_witness :
    Aggregator.determine_overall_status_list [("warning"), ("pass"), ("fail"), ("pass")] =
      Aggregator.determine_overall_status_list [("pass"), ("fail"), ("pass"), ("warning")] :=
  preauth_overall_status_hierarchy.2 _ _ (by decide)

/-- C2: both final scores are clamped into the inclusive range 0..100,
however negative the raw sum of agent score impacts. -/
theorem final_scores_bounded :
    (∀ c p m f : Int,
      0 ≤ Aggregator.calculate_final_score c p m f ∧
        Aggregator.calculate_final_score c p m f ≤ 100) ∧
    (∀ (b ce mg : Int) (hd hb : Bool),
      0 ≤ DischargeAggregator.calculate_overall_score b ce mg hd hb ∧
        DischargeAggregator.calculate_overall_score b ce mg hd hb ≤ 100) := by
  constructor
  · intro c p m f
    simp only [Aggregator.calculate_final_score]
    omega
  · intro b ce mg hd hb
    simp only [DischargeAggregator.calculate_overall_score]
    split_ifs <;> omega

/-- Helper: the policy score fold with an arbitrary accumulator shifts the
result by the accumulator. -/
theorem policy_score_foldl_shift (violations : List PolicyValidator.PolicyViolation) :
    ∀ init : Int,
      violations.foldl
        (fun score v =>
          if v.severity = "critical" then score - 20
          else if v.severity = "warning" then score - 10
          else score) init =
      init + violations.foldl
        (fun score v =>
          if v.severity = "critical" then score - 20
          else if v.severity = "warning" then score - 10
          else score) 0 := by
  induction violations with
  | nil => intro init; simp
  | cons v vs ih =>
    intro init
    simp only [List.foldl_cons]
    rw [ih]
    conv_rhs => rw [ih]
    split_ifs <;> ring

/-- C3: prepending one more critical violation lowers the policy score
impact by exactly 20, never increases the clamped final score, forces the
policy status to fail, and hence forces the overall status to fail. -/
theorem critical_violation_monotone
    (v : PolicyValidator.PolicyViolation) (vs : List PolicyValidator.PolicyViolation)
    (hcrit : v.severity = "critical") :
    PolicyValidator.calculate_score_impact (v :: vs) =
      PolicyValidator.calculate_score_impact vs - 20 ∧
    (∀ c m f : Int,
      Aggregator.calculate_final_score c (PolicyValidator.calculate_score_impact (v :: vs)) m f ≤
        Aggregator.calculate_final_score c (PolicyValidator.calculate_score_impact vs) m f) ∧
    PolicyValidator.status_of_violations (v :: vs) = "fail" ∧
    (∀ cs ms fs : String,
      Aggregator.determine_overall_status cs (PolicyValidator.status_of_violations (v :: vs)) ms fs =
        "fail") := by
  have himpact : PolicyValidator.calculate_score_impact (v :: vs) =
      PolicyValidator.calculate_score_impact vs - 20 := by
    unfold PolicyValidator.calculate_score_impact
    simp only [List.foldl_cons]
    rw [policy_score_foldl_shift]
    simp only [hcrit]
    split_ifs <;> simp_all <;> omega
  have hstatus : PolicyValidator.status_of_violations (v :: vs) = "fail" := by
    unfold PolicyValidator.status_of_violations
    simp [hcrit]
  refine ⟨himpact, ?_, hstatus, ?_⟩
  · intro c m f
    rw [himpact]
    simp only [Aggregator.calculate_final_score]
    omega
  · intro cs ms fs
    rw [hstatus]
    unfold Aggregator.determine_overall_status Aggregator.determine_overall_status_list
    simp

/-- Witness for C3: one concrete critical violation prepended to the empty
violation list. -/
theorem critical_violation_monotone_witness :
    PolicyValidator.calculate_score_impact
        [{ rule := "exclusions", severity := "critical" }] =
      PolicyValidator.calculate_score_impact [] - 20 ∧
    Aggregator.determine_overall_status ("pass")
        (PolicyValidator.status_of_violations
          [{ rule := "exclusions", severity := "critical" }]) ("pass") ("pass") =
      "fail" := by
  have h := critical_violation_monotone
    { rule := "exclusions", severity := "critical" } [] rfl
  exact ⟨h.1, h.2.2.2 ("pass") ("pass") ("pass")⟩

/-- C5: the elapsed-month count equals the calendar-month difference minus
one exactly when the admission day-of-month is strictly smaller than the
policy-start day-of-month; and an absent or zero configured waiting period
produces no violation from the procedure-waiting-period check. -/
theorem months_between_and_absent_waiting_period :
    (∀ s e : PolicyValidator.Date,
      PolicyValidator.calculate_months_between s e =
        (e.year - s.year) * 12 + (e.month - s.month) -
          (if e.day < s.day then 1 else 0)) ∧
    (∀ s e : PolicyValidator.Date,
      PolicyValidator.check_procedure_waiting_period Option.none s e = [] ∧
      PolicyValidator.check_procedure_waiting_period (Option.some 0) s e = []) := by
  constructor
  · intro s e
    unfold PolicyValidator.calculate_months_between
    split_ifs <;> ring
  · intro s e
    constructor
    · rfl
    · unfold PolicyValidator.check_procedure_waiting_period
      simp

/-- C4: the completeness checker passes iff its issue list is empty (and
fails otherwise), its score impact is -5 times the issue count with no
lower bound; and a form missing 3 of the 8 required fields with an
otherwise complete note yields status fail, score impact -15 and exactly
3 issues. -/
theorem completeness_validate_spec :
    (∀ (form : List (String × CompletenessChecker.PyValue))
       (note : CompletenessChecker.MedicalNote),
      ((CompletenessChecker.validate form note).status = "pass" ↔
        (CompletenessChecker.validate form note).issues = []) ∧
      ((CompletenessChecker.validate form note).status = "fail" ↔
        (CompletenessChecker.validate form note).issues ≠ []) ∧
      (CompletenessChecker.validate form note).score_impact =
        -5 * ((CompletenessChecker.validate form note).issues.length : Int)) ∧
    ((CompletenessChecker.validate CompletenessChecker.example_form
        CompletenessChecker.example_note).status = "fail" ∧
      (CompletenessChecker.validate CompletenessChecker.example_form
        CompletenessChecker.example_note).score_impact = -15 ∧
      (CompletenessChecker.validate CompletenessChecker.example_form
        CompletenessChecker.example_note).issues.length = 3) := by
  constructor
  · intro form note
    simp only [CompletenessChecker.validate, CompletenessChecker.calculate_score_impact,
      CompletenessChecker.SCORE_DEDUCTION_PER_FIELD]
    generalize (CompletenessChecker.check_form_fields form ++
      CompletenessChecker.check_medical_note_sections note ++
      CompletenessChecker.check_cost_breakdown note.cost_breakdown) = issues
    rcases issues with _ | ⟨i, is⟩ <;> simp <;> ring
  · have hform : CompletenessChecker.check_form_fields CompletenessChecker.example_form =
        [CompletenessChecker.CompletenessIssue.missingFormField ("insurer"),
         CompletenessChecker.CompletenessIssue.missingFormField ("policy_type"),
         CompletenessChecker.CompletenessIssue.missingFormField ("procedure_id")] := by
      simp [CompletenessChecker.check_form_fields, CompletenessChecker.REQUIRED_FORM_FIELDS,
        CompletenessChecker.example_form, List.lookup, CompletenessChecker.PyValue.truthy]
    have hsections : CompletenessChecker.check_medical_note_sections
        CompletenessChecker.example_note = [] := by
      simp [CompletenessChecker.check_medical_note_sections,
        CompletenessChecker.REQUIRED_MEDICAL_NOTE_SECTIONS,
        CompletenessChecker.example_note, CompletenessChecker.MedicalNote.model_dump,
        CompletenessChecker.CostBreakdown.model_dump, CompletenessChecker.option_float,
        CompletenessChecker.example_cost_breakdown, List.lookup,
        CompletenessChecker.PyValue.truthy]
    have hcost : CompletenessChecker.check_cost_breakdown
        CompletenessChecker.example_cost_breakdown = [] := by
      norm_num [CompletenessChecker.check_cost_breakdown,
        CompletenessChecker.example_cost_breakdown,
        CompletenessChecker.CostBreakdown.components,
        CompletenessChecker.CostBreakdown.calculated_total]
    have hcb : CompletenessChecker.example_note.cost_breakdown =
        CompletenessChecker.example_cost_breakdown := rfl
    refine ⟨?_, ?_, ?_⟩ <;>
      simp [CompletenessChecker.validate, hform, hsections, hcost, hcb,
        CompletenessChecker.calculate_score_impact,
        CompletenessChecker.SCORE_DEDUCTION_PER_FIELD]

/-- C8: for a positive declared total, the completeness checker raises a
sum-mismatch issue exactly when the component sum differs from the total
by strictly more than 1 percent of the total. -/
theorem sum_mismatch_tolerance (cb : CompletenessChecker.CostBreakdown)
    (htotal : 0 < cb.total_estimated_cost) :
    ((CompletenessChecker.check_cost_breakdown cb).any
        CompletenessChecker.CompletenessIssue.isSumMismatch) = true ↔
      |cb.calculated_total - cb.total_estimated_cost| >
        cb.total_estimated_cost * (1 / 100) := by
  simp only [CompletenessChecker.check_cost_breakdown, if_neg (not_le.mpr htotal)]
  split_ifs <;>
    simp_all [CompletenessChecker.CompletenessIssue.isSumMismatch]

/-- Witness for C8: a breakdown whose components sum to 500 against a
declared total of 1000 raises the sum-mismatch issue. -/
theorem sum_mismatch_tolerance_witness :
    ((CompletenessChecker.check_cost_breakdown
        CompletenessChecker.example_mismatch_breakdown).any
      CompletenessChecker.CompletenessIssue.isSumMismatch) = true :=
  (sum_mismatch_tolerance CompletenessChecker.example_mismatch_breakdown
    (by norm_num [CompletenessChecker.example_mismatch_breakdown])).mpr
    (by norm_num [CompletenessChecker.example_mismatch_breakdown,
      CompletenessChecker.CostBreakdown.calculated_total])

/-- C9 counterexample: a breakdown whose ICU charge is negative (with a
consistent positive total) produces no issue at all, refuting the claim
that any negative named component is reported. -/
theorem negative_icu_unreported :
    CompletenessChecker.example_negative_icu_breakdown.icu_charges.getD 0 < 0 ∧
    0 < CompletenessChecker.example_negative_icu_breakdown.total_estimated_cost ∧
    CompletenessChecker.check_cost_breakdown
      CompletenessChecker.example_negative_icu_breakdown = [] := by
  refine ⟨?_, ?_, ?_⟩ <;>
    norm_num [CompletenessChecker.check_cost_breakdown,
      CompletenessChecker.example_negative_icu_breakdown,
      CompletenessChecker.CostBreakdown.components,
      CompletenessChecker.CostBreakdown.calculated_total]

/-- C9 amended: for a positive declared total, a negative value among the
six components the source actually inspects (room, surgeon, anesthetist,
OT, investigations, medicines/consumables — not ICU, implants or other
charges) is reported as a negative-values issue. -/
theorem negative_components_flagged (cb : CompletenessChecker.CostBreakdown)
    (htotal : 0 < cb.total_estimated_cost)
    (hneg : cb.room_charges < 0 ∨ cb.surgeon_fees < 0 ∨ cb.anesthetist_fees < 0 ∨
      cb.ot_charges < 0 ∨ cb.investigations < 0 ∨ cb.medicines_consumables < 0) :
    CompletenessChecker.CompletenessIssue.costNegative ∈
      CompletenessChecker.check_cost_breakdown cb := by
  have hany : cb.components.any (fun cost => decide (cost < 0)) = true := by
    simp only [CompletenessChecker.CostBreakdown.components, List.any_cons,
      List.any_nil, Bool.or_eq_true, decide_eq_true_eq, Bool.false_eq_true, or_false]
    tauto
  simp only [CompletenessChecker.check_cost_breakdown, if_neg (not_le.mpr htotal), hany,
    if_true, List.mem_append, List.mem_singleton]
  split_ifs <;> simp

/-- Witness for C9 amended: a negative room charge is flagged. -/
theorem negative_components_flagged_witness :
    CompletenessChecker.CompletenessIssue.costNegative ∈
      CompletenessChecker.check_cost_breakdown
        CompletenessChecker.example_negative_room_breakdown :=
  negative_components_flagged CompletenessChecker.example_negative_room_breakdown
    (by norm_num [CompletenessChecker.example_negative_room_breakdown])
    (Or.inl (by norm_num [CompletenessChecker.example_negative_room_breakdown]))

/-- Helper: two-decimal rounding fixes the sentinel value. -/
theorem round2_sentinel : BillReconciliationAgent.round2 999.9 = 999.9 := by
  norm_num [BillReconciliationAgent.round2, round_eq]

/-- Helper: projections of a comparison entry. -/
theorem make_item_proj (c : String) (e a : ℚ) :
    (BillReconciliationAgent.make_item c e a).item = c ∧
    (BillReconciliationAgent.make_item c e a).expected = e ∧
    (BillReconciliationAgent.make_item c e a).actual = a :=
  ⟨rfl, rfl, rfl⟩

/-- Helper: the stored percentage of an entry with positive expected
amount. -/
theorem make_item_percentage_pos (c : String) (e a : ℚ) (h : 0 < e) :
    (BillReconciliationAgent.make_item c e a).percentage =
      BillReconciliationAgent.round2 (|a - e| / e * 100) := by
  simp only [BillReconciliationAgent.make_item]
  rw [if_pos h]

/-- Helper: the stored percentage of an entry with zero expected and
non-zero actual amount is the sentinel. -/
theorem make_item_percentage_sentinel (c : String) (e a : ℚ) (he : e = 0) (ha : a ≠ 0) :
    (BillReconciliationAgent.make_item c e a).percentage = 999.9 := by
  simp only [BillReconciliationAgent.make_item]
  rw [if_neg (by rw [he]; exact lt_irrefl 0), if_neg ha, round2_sentinel]

/-- Helper: the properties of one emitted entry, given that the effective
amounts are not both zero. -/
theorem make_item_entry_props (c : String) (e a : ℚ) (h2 : ¬(e = 0 ∧ a = 0)) :
    (BillReconciliationAgent.make_item c e a).item = c ∧
    (¬((BillReconciliationAgent.make_item c e a).expected = 0 ∧
        (BillReconciliationAgent.make_item c e a).actual = 0) ∧
      (0 < (BillReconciliationAgent.make_item c e a).expected →
        (BillReconciliationAgent.make_item c e a).percentage =
          BillReconciliationAgent.round2
            (|(BillReconciliationAgent.make_item c e a).actual -
                (BillReconciliationAgent.make_item c e a).expected| /
              (BillReconciliationAgent.make_item c e a).expected * 100)) ∧
      ((BillReconciliationAgent.make_item c e a).expected = 0 →
        (BillReconciliationAgent.make_item c e a).actual ≠ 0 ∧
        (BillReconciliationAgent.make_item c e a).percentage = 999.9)) := by
  refine ⟨rfl, h2, ?_, ?_⟩
  · intro hpos
    exact make_item_percentage_pos c e a hpos
  · intro h0
    have ha : a ≠ 0 := fun hz => h2 ⟨h0, hz⟩
    exact ⟨ha, make_item_percentage_sentinel c e a h0 ha⟩

/-- Helper: every entry the comparison loop emits is named by one of the
remaining categories, never has both stored amounts zero, and carries the
claimed percentage. -/
theorem compare_loop_mem_props (expected actual : List (String × ℚ)) :
    ∀ (cs seen : List String) (it : BillReconciliationAgent.LineItemComparison),
      it ∈ BillReconciliationAgent.compare_loop expected actual cs seen →
      it.item ∈ cs ∧ ¬(it.expected = 0 ∧ it.actual = 0) ∧
      (0 < it.expected → it.percentage =
        BillReconciliationAgent.round2 (|it.actual - it.expected| / it.expected * 100)) ∧
      (it.expected = 0 → it.actual ≠ 0 ∧ it.percentage = 999.9) := by
  intro cs
  induction cs with
  | nil =>
    intro seen it h
    simp [BillReconciliationAgent.compare_loop] at h
  | cons c rest ih =>
    intro seen it h
    simp only [BillReconciliationAgent.compare_loop] at h
    split at h
    · have H := ih seen it h
      exact ⟨List.mem_cons_of_mem _ H.1, H.2⟩
    · split at h <;> split at h
      · have H := ih seen it h
        exact ⟨List.mem_cons_of_mem _ H.1, H.2⟩
      · rename_i h2
        rcases List.mem_cons.mp h with he | hrest
        · subst he
          have H := make_item_entry_props c _ _ h2
          refine ⟨?_, H.2⟩
          rw [H.1]
          exact List.mem_cons_self _ _
        · have H := ih (c :: seen) it hrest
          exact ⟨List.mem_cons_of_mem _ H.1, H.2⟩
      · have H := ih seen it h
        exact ⟨List.mem_cons_of_mem _ H.1, H.2⟩
      · rename_i h2
        rcases List.mem_cons.mp h with he | hrest
        · subst he
          have H := make_item_entry_props c _ _ h2
          refine ⟨?_, H.2⟩
          rw [H.1]
          exact List.mem_cons_self _ _
        · have H := ih (c :: seen) it hrest
          exact ⟨List.mem_cons_of_mem _ H.1, H.2⟩

/-- Helper: once `medicines` is in the seen set, the loop never emits a
`medicines_consumables` entry. -/
theorem compare_loop_mc_skipped (expected actual : List (String × ℚ)) :
    ∀ (cs seen : List String), "medicines" ∈ seen →
      ∀ it ∈ BillReconciliationAgent.compare_loop expected actual cs seen,
        it.item ≠ "medicines_consumables" := by
  intro cs
  induction cs with
  | nil =>
    intro seen _ it h
    simp [BillReconciliationAgent.compare_loop] at h
  | cons c rest ih =>
    intro seen hmed it h
    simp only [BillReconciliationAgent.compare_loop] at h
    split at h
    · exact ih seen hmed it h
    · rename_i h1
      split at h <;> split at h
      · exact ih seen hmed it h
      · rcases List.mem_cons.mp h with he | hrest
        · subst he
          rw [(make_item_proj _ _ _).1]
          intro hc
          exact h1 ⟨hc, hmed⟩
        · exact ih (c :: seen) (List.mem_cons_of_mem _ hmed) it hrest
      · exact ih seen hmed it h
      · rcases List.mem_cons.mp h with he | hrest
        · subst he
          rw [(make_item_proj _ _ _).1]
          intro hc
          exact h1 ⟨hc, hmed⟩
        · exact ih (c :: seen) (List.mem_cons_of_mem _ hmed) it hrest

/-- Helper: under the ordering discipline of the category list, the loop
never emits both a `medicines` and a `medicines_consumables` entry. -/
theorem compare_loop_no_double (expected actual : List (String × ℚ)) :
    ∀ (cs seen : List String), BillReconciliationAgent.okOrder cs →
      ¬((∃ it ∈ BillReconciliationAgent.compare_loop expected actual cs seen,
          it.item = "medicines") ∧
        (∃ it ∈ BillReconciliationAgent.compare_loop expected actual cs seen,
          it.item = "medicines_consumables")) := by
  intro cs
  induction cs with
  | nil =>
    intro seen _ hcontra
    obtain ⟨⟨it, hit, _⟩, _⟩ := hcontra
    simp [BillReconciliationAgent.compare_loop] at hit
  | cons c rest ih =>
    intro seen hok hcontra
    obtain ⟨⟨it1, h1m, h1i⟩, ⟨it2, h2m, h2i⟩⟩ := hcontra
    have hhead : c = "medicines_consumables" → "medicines" ∉ rest :=
      (hok : (c = "medicines_consumables" → "medicines" ∉ rest) ∧
        BillReconciliationAgent.okOrder rest).1
    have htail : BillReconciliationAgent.okOrder rest :=
      (hok : (c = "medicines_consumables" → "medicines" ∉ rest) ∧
        BillReconciliationAgent.okOrder rest).2
    simp only [BillReconciliationAgent.compare_loop] at h1m h2m
    split at h1m
    · rename_i hA
      rw [if_pos hA] at h2m
      exact ih seen htail ⟨⟨it1, h1m, h1i⟩, ⟨it2, h2m, h2i⟩⟩
    · rename_i hA
      rw [if_neg hA] at h2m
      split at h1m
      · rename_i hS
        rw [if_pos hS] at h2m
        split at h1m
        · rename_i hB
          rw [if_pos hB] at h2m
          exact ih seen htail ⟨⟨it1, h1m, h1i⟩, ⟨it2, h2m, h2i⟩⟩
        · rename_i hB
          rw [if_neg hB] at h2m
          rcases List.mem_cons.mp h1m with he1 | ht1 <;>
            rcases List.mem_cons.mp h2m with he2 | ht2
          · subst he1
            subst he2
            rw [(make_item_proj _ _ _).1] at h1i h2i
            exact absurd (h1i.symm.trans h2i) (by simp)
          · subst he1
            rw [(make_item_proj _ _ _).1] at h1i
            subst h1i
            exact compare_loop_mc_skipped expected actual rest _
              (List.mem_cons_self _ _) it2 ht2 h2i
          · subst he2
            rw [(make_item_proj _ _ _).1] at h2i
            have hmem := (compare_loop_mem_props expected actual rest _ it1 ht1).1
            rw [h1i] at hmem
            exact hhead h2i hmem
          · exact ih (c :: seen) htail ⟨⟨it1, ht1, h1i⟩, ⟨it2, ht2, h2i⟩⟩
      · rename_i hS
        rw [if_neg hS] at h2m
        split at h1m
        · rename_i hB
          rw [if_pos hB] at h2m
          exact ih seen htail ⟨⟨it1, h1m, h1i⟩, ⟨it2, h2m, h2i⟩⟩
        · rename_i hB
          rw [if_neg hB] at h2m
          rcases List.mem_cons.mp h1m with he1 | ht1 <;>
            rcases List.mem_cons.mp h2m with he2 | ht2
          · subst he1
            subst he2
            rw [(make_item_proj _ _ _).1] at h1i h2i
            exact absurd (h1i.symm.trans h2i) (by simp)
          · subst he1
            rw [(make_item_proj _ _ _).1] at h1i
            subst h1i
            exact compare_loop_mc_skipped expected actual rest _
              (List.mem_cons_self _ _) it2 ht2 h2i
          · subst he2
            rw [(make_item_proj _ _ _).1] at h2i
            have hmem := (compare_loop_mem_props expected actual rest _ it1 ht1).1
            rw [h1i] at hmem
            exact hhead h2i hmem
          · exact ih (c :: seen) htail ⟨⟨it1, ht1, h1i⟩, ⟨it2, ht2, h2i⟩⟩

/-- Helper: the fixed category list satisfies the ordering discipline. -/
theorem okOrder_categories : BillReconciliationAgent.okOrder BillReconciliationAgent.categories := by
  simp [BillReconciliationAgent.okOrder, BillReconciliationAgent.categories]

/-- C6: the line-item comparison iterates the fixed 11-category list
(every emitted entry is named by one of them), skips a category when both
effective amounts are zero, never emits both entries of the
medicines/medicines-consumables synonym pair, and stores the percentage
|actual - expected| / expected × 100 (rounded to two decimals) when the
expected amount is positive and the sentinel 999.9 when the expected
amount is zero but the actual is not. -/
theorem compare_line_items_spec :
    BillReconciliationAgent.categories.length = 11 ∧
    ∀ (expected actual : List (String × ℚ)),
      (∀ it ∈ BillReconciliationAgent.compare_line_items expected actual,
        it.item ∈ BillReconciliationAgent.categories ∧
        ¬(it.expected = 0 ∧ it.actual = 0) ∧
        (0 < it.expected → it.percentage =
          BillReconciliationAgent.round2 (|it.actual - it.expected| / it.expected * 100)) ∧
        (it.expected = 0 → it.actual ≠ 0 ∧ it.percentage = 999.9)) ∧
      ¬((∃ it ∈ BillReconciliationAgent.compare_line_items expected actual,
          it.item = "medicines") ∧
        (∃ it ∈ BillReconciliationAgent.compare_line_items expected actual,
          it.item = "medicines_consumables")) := by
  refine ⟨rfl, fun expected actual => ⟨?_, ?_⟩⟩
  · intro it h
    exact compare_loop_mem_props expected actual _ _ it h
  · exact compare_loop_no_double expected actual _ _ okOrder_categories

/-- Witness for C6: the entry produced for a 100-expected, 150-actual
room charge carries the claimed percentage. -/
theorem compare_line_items_spec_witness :
    BillReconciliationAgent.example_line_item.percentage =
      BillReconciliationAgent.round2
        (|BillReconciliationAgent.example_line_item.actual -
            BillReconciliationAgent.example_line_item.expected| /
          BillReconciliationAgent.example_line_item.expected * 100) :=
  ((compare_line_items_spec.2 [("room_charges", (100 : ℚ))] [("room_charges", (150 : ℚ))]).1
      BillReconciliationAgent.example_line_item
      (by
        norm_num [BillReconciliationAgent.compare_line_items,
          BillReconciliationAgent.compare_loop, BillReconciliationAgent.categories,
          BillReconciliationAgent.dict_get, BillReconciliationAgent.make_item,
          BillReconciliationAgent.example_line_item, BillReconciliationAgent.round2,
          BillReconciliationAgent.ACCEPTABLE_THRESHOLD,
          BillReconciliationAgent.MINOR_THRESHOLD, List.lookup, round_eq])).2.2.1
    (by norm_num [BillReconciliationAgent.example_line_item])

set_option maxHeartbeats 1600000 in
/-- C7: the bill-reconciliation score impact is the base deduction for the
overall status (0 acceptable, -5 minor variance, -15 significant
variance) plus -2 per significant line item counting at most 3, floored
at -20; and the concrete 52,000-expected / 79,500-actual scenario yields
percentage 52.88, status significant variance, score impact -20, and a
flagged 1-day stay extension. -/
theorem bill_score_impact_spec :
    (∀ (severity : String) (line_items : List BillReconciliationAgent.LineItemComparison),
      BillReconciliationAgent.calculate_score_impact severity line_items =
        max (-20)
          ((if severity = "acceptable" then 0
            else if severity = "minor_variance" then -5
            else if severity = "significant_variance" then -15 else 0) +
            (-2) * min 3 (((line_items.filter
              (fun item => decide (item.severity = "significant"))).length : Int)))) ∧
    ((BillReconciliationAgent.reconcile BillReconciliationAgent.example_expected_costs
        BillReconciliationAgent.example_actual_bill 1 2).status = "significant_variance" ∧
      (BillReconciliationAgent.reconcile BillReconciliationAgent.example_expected_costs
        BillReconciliationAgent.example_actual_bill 1 2).total_variance.percentage = 52.88 ∧
      (BillReconciliationAgent.reconcile BillReconciliationAgent.example_expected_costs
        BillReconciliationAgent.example_actual_bill 1 2).score_impact = -20 ∧
      (BillReconciliationAgent.reconcile BillReconciliationAgent.example_expected_costs
        BillReconciliationAgent.example_actual_bill 1 2).stay_variance.is_extended = true ∧
      (BillReconciliationAgent.reconcile BillReconciliationAgent.example_expected_costs
        BillReconciliationAgent.example_actual_bill 1 2).stay_variance.extra_days = 1) := by
  constructor
  · intro severity line_items
    simp only [BillReconciliationAgent.calculate_score_impact]
    split_ifs <;> push_cast [Nat.cast_min] <;> omega
  · have hexp : BillReconciliationAgent.dict_get
        BillReconciliationAgent.example_expected_costs ("total_estimated_cost") = 52000 := by
      simp [BillReconciliationAgent.dict_get,
        BillReconciliationAgent.example_expected_costs, List.lookup]
    have htot : BillReconciliationAgent.example_actual_bill.total_bill_amount = 79500 := rfl
    have hitems : BillReconciliationAgent.compare_line_items
        BillReconciliationAgent.example_expected_costs
        BillReconciliationAgent.example_actual_bill.itemized_costs =
        [BillReconciliationAgent.make_item ("room_charges") 3500 10500,
         BillReconciliationAgent.make_item ("surgeon_fees") 18000 18000,
         BillReconciliationAgent.make_item ("anesthetist_fees") 3000 3000,
         BillReconciliationAgent.make_item ("ot_charges") 12000 20000,
         BillReconciliationAgent.make_item ("medicines") 13500 25000,
         BillReconciliationAgent.make_item ("investigations") 1500 2500,
         BillReconciliationAgent.make_item ("other_charges") 500 500] := by
      simp [BillReconciliationAgent.compare_line_items,
        BillReconciliationAgent.compare_loop, BillReconciliationAgent.categories,
        BillReconciliationAgent.dict_get, BillReconciliationAgent.example_expected_costs,
        BillReconciliationAgent.example_actual_bill, List.lookup]
    have hsev1 : (BillReconciliationAgent.make_item ("room_charges") 3500 10500).severity =
        "significant" := by
      norm_num [BillReconciliationAgent.make_item, abs_of_nonneg,
        BillReconciliationAgent.ACCEPTABLE_THRESHOLD, BillReconciliationAgent.MINOR_THRESHOLD]
    have hsev2 : (BillReconciliationAgent.make_item ("surgeon_fees") 18000 18000).severity =
        "acceptable" := by
      norm_num [BillReconciliationAgent.make_item, abs_of_nonneg,
        BillReconciliationAgent.ACCEPTABLE_THRESHOLD, BillReconciliationAgent.MINOR_THRESHOLD]
    have hsev3 : (BillReconciliationAgent.make_item ("anesthetist_fees") 3000 3000).severity =
        "acceptable" := by
      norm_num [BillReconciliationAgent.make_item, abs_of_nonneg,
        BillReconciliationAgent.ACCEPTABLE_THRESHOLD, BillReconciliationAgent.MINOR_THRESHOLD]
    have hsev4 : (BillReconciliationAgent.make_item ("ot_charges") 12000 20000).severity =
        "significant" := by
      norm_num [BillReconciliationAgent.make_item, abs_of_nonneg,
        BillReconciliationAgent.ACCEPTABLE_THRESHOLD, BillReconciliationAgent.MINOR_THRESHOLD]
    have hsev5 : (BillReconciliationAgent.make_item ("medicines") 13500 25000).severity =
        "significant" := by
      norm_num [BillReconciliationAgent.make_item, abs_of_nonneg,
        BillReconciliationAgent.ACCEPTABLE_THRESHOLD, BillReconciliationAgent.MINOR_THRESHOLD]
    have hsev6 : (BillReconciliationAgent.make_item ("investigations") 1500 2500).severity =
        "significant" := by
      norm_num [BillReconciliationAgent.make_item, abs_of_nonneg,
        BillReconciliationAgent.ACCEPTABLE_THRESHOLD, BillReconciliationAgent.MINOR_THRESHOLD]
    have hsev7 : (BillReconciliationAgent.make_item ("other_charges") 500 500).severity =
        "acceptable" := by
      norm_num [BillReconciliationAgent.make_item, abs_of_nonneg,
        BillReconciliationAgent.ACCEPTABLE_THRESHOLD, BillReconciliationAgent.MINOR_THRESHOLD]
    have hpct : (BillReconciliationAgent.calculate_total_variance 52000 79500).percentage =
        52.88 := by
      norm_num [BillReconciliationAgent.calculate_total_variance,
        BillReconciliationAgent.round2, round_eq]
    have hstat : BillReconciliationAgent.determine_severity 52.88 = "significant_variance" := by
      norm_num [BillReconciliationAgent.determine_severity, abs_of_nonneg,
        BillReconciliationAgent.ACCEPTABLE_THRESHOLD, BillReconciliationAgent.MINOR_THRESHOLD]
    have hscore : BillReconciliationAgent.calculate_score_impact ("significant_variance")
        [BillReconciliationAgent.make_item ("room_charges") 3500 10500,
         BillReconciliationAgent.make_item ("surgeon_fees") 18000 18000,
         BillReconciliationAgent.make_item ("anesthetist_fees") 3000 3000,
         BillReconciliationAgent.make_item ("ot_charges") 12000 20000,
         BillReconciliationAgent.make_item ("medicines") 13500 25000,
         BillReconciliationAgent.make_item ("investigations") 1500 2500,
         BillReconciliationAgent.make_item ("other_charges") 500 500] = -20 := by
      simp only [BillReconciliationAgent.calculate_score_impact]
      simp [List.filter, hsev1, hsev2, hsev3, hsev4, hsev5, hsev6, hsev7]
    refine ⟨?_, ?_, ?_, ?_, ?_⟩ <;>
      simp [BillReconciliationAgent.reconcile, hexp, htot, hitems, hpct, hstat, hscore,
        BillReconciliationAgent.calculate_stay_variance]

/-- C10: the discharge aggregator always returns a non-empty
recommendation list; when every issue-driven branch is quiet it emits the
fixed "documentation appears complete" recommendation. -/
theorem discharge_recommendations_nonempty :
    (∀ (bill_recon_status cost_esc_status : String) (has_discharge has_bill : Bool)
       (meds appts signs : Nat),
      DischargeAggregator.generate_recommendations bill_recon_status cost_esc_status
        (DischargeAggregator.generate_document_checklist has_discharge has_bill
          meds appts signs) ≠ []) ∧
    (∀ (bill_recon_status cost_esc_status : String)
       (checklist : DischargeAggregator.DocumentChecklist),
      DischargeAggregator.generate_recommendations bill_recon_status cost_esc_status
          checklist ≠ [] ∧
      (checklist.discharge_summary_present = true →
       checklist.final_bill_present = true →
       checklist.medications_present = true →
       checklist.follow_up_present = true →
       ¬(bill_recon_status = "significant_variance" ∧
          cost_esc_status = "not_documented") →
       DischargeAggregator.generate_recommendations bill_recon_status cost_esc_status
           checklist =
         [("Documentation appears complete. Submit to insurer for their review.")])) := by
  have base : ∀ l : List String,
      (if l = [] then
        [("Documentation appears complete. Submit to insurer for their review.")]
      else l) ≠ [] := by
    intro l
    split <;> simp_all
  have key : ∀ (brs ces : String) (cl : DischargeAggregator.DocumentChecklist),
      DischargeAggregator.generate_recommendations brs ces cl ≠ [] := by
    intro brs ces cl
    simp only [DischargeAggregator.generate_recommendations]
    exact base _
  refine ⟨fun a b c d e f g => key _ _ _, fun brs ces cl => ⟨key _ _ _, ?_⟩⟩
  intro h1 h2 h3 h4 h5
  simp [DischargeAggregator.generate_recommendations, h1, h2, h3, h4, h5]

/-- Witness for C10: with every document present, guidance documented and
no undocumented significant variance, the single fallback recommendation
is returned. -/
theorem discharge_recommendations_nonempty_witness :
    DischargeAggregator.generate_recommendations ("acceptable") ("documented")
        { discharge_summary_present := true, final_bill_present := true,
          medications_present := true, follow_up_present := true,
          warning_signs_present := true } =
      [("Documentation appears complete. Submit to insurer for their review.")] :=
  (discharge_recommendations_nonempty.2 ("acceptable") ("documented")
    { discharge_summary_present := true, final_bill_present := true,
      medications_present := true, follow_up_present := true,
      warning_signs_present := true }).2 rfl rfl rfl rfl (by simp)

end Iris
